import Mathlib

/-!
Shallow embedding of the SAVER_LOGGER Burp extension
(`SAVER_LOGGER.py`): the correlation table, the record store, the
shared serial counter, the event-processing worker, the CSV exporter
and the backup scheduler, together with proofs of the documented
invariants of that pipeline.

The embedding models the mutable fields of the extension object as an
explicit `LoggerState`; the per-event handlers become state
transformers; the exporter returns the data rows it would write (or
`none` when it reports failure and creates no file); Python strings
are Lean `String`s and the row serialization works on their underlying
character lists.
-/

/-- Correlation-table entry, i.e. a value of `request_tracking`
(`_handle_request`, lines 328–333 of the source): start timestamp, a
never-used `end_time` slot stored as `None`, the insertion-point count
and the request URL. -/
structure PendingRequest where
  start_time : String
  end_time : Option String
  insertion_points : Nat
  url : String
deriving DecidableEq

/-- Finalized log entry: the ten columns appended to `log_data` in
`_handle_response` (lines 383–394 of the source). -/
structure LogRecord where
  serial : Nat
  host : String
  method : String
  url : String
  status : String
  tool : String
  request_count : Nat
  insertion_points : Nat
  start_time : String
  end_time : String
deriving DecidableEq

/-- The data `_handle_request` extracts from a request message via the
Burp helpers: the URL, the parameter list (opaque parameters, only
their number matters) and the formatted arrival timestamp. -/
structure RequestEvent where
  url : String
  params : List Unit
  start_time : String
deriving DecidableEq

/-- The data `_handle_response` extracts from a response message:
URL, host, method, the raw response (`none` when absent, `some none`
when the status line fails to parse, `some (some c)` for status code
`c`), the tool name and the formatted arrival timestamp. -/
structure ResponseEvent where
  url : String
  host : String
  method : String
  res : Option (Option Nat)
  tool : String
  end_time : String
deriving DecidableEq

/-- One work item of the processing queue, as classified by
`_process_request_data` on its `is_request` flag. -/
inductive TrafficEvent where
  | req (e : RequestEvent)
  | res (e : ResponseEvent)
deriving DecidableEq

/-- The mutable fields of the extension object that the pipeline,
exporter and scheduler read and write: `log_data` (the record store),
`request_counter` (the shared serial counter), `request_tracking`
(the correlation table, modelled as an association list standing for
the Python dict), and the backup settings with the debounce timestamp
`last_backup_time` (epoch seconds). -/
structure LoggerState where
  log_data : List LogRecord
  request_counter : Nat
  request_tracking : List (Nat × PendingRequest)
  auto_backup_enabled : Bool
  backup_interval_seconds : Nat
  last_backup_time : Int
deriving DecidableEq

/-- Dict read `request_tracking.get(k)`: first entry with the key. -/
def lookupTrack (k : Nat) : List (Nat × PendingRequest) → Option PendingRequest
  | [] => none
  | kv :: rest => if kv.1 = k then some kv.2 else lookupTrack k rest

/-- Dict delete `del request_tracking[k]` (no-op when absent). -/
def eraseTrack (k : Nat) (m : List (Nat × PendingRequest)) : List (Nat × PendingRequest) :=
  m.filter (fun kv => kv.1 != k)

/-- Dict write `request_tracking[k] = v` (replaces any old value). -/
def insertTrack (k : Nat) (v : PendingRequest) (m : List (Nat × PendingRequest)) :
    List (Nat × PendingRequest) :=
  (k, v) :: eraseTrack k m

/-- The field values set in `registerExtenderCallbacks`: empty store,
counter `0`, empty correlation table, auto-backup enabled, interval
`60` seconds, `last_backup_time = 0`. -/
def initState : LoggerState :=
  { log_data := []
    request_counter := 0
    request_tracking := []
    auto_backup_enabled := true
    backup_interval_seconds := 60
    last_backup_time := 0 }

/-- `_count_insertion_points`: the number of parameters Burp reports
for the request (an empty parameter list yields `0`). -/
def count_insertion_points (params : List Unit) : Nat :=
  params.length

/-- Status-code extraction of `_handle_response` (lines 342–348):
`"-"` when there is no response, `"Error"` when the analyzer throws,
otherwise the status code rendered as a string. -/
def statusOf : Option (Option Nat) → String
  | none => "-"
  | some none => "Error"
  | some (some c) => toString c

/-- The identifier a request processed in state `s` receives:
`_handle_request` reads `request_counter + 1` under the data lock
(line 321) without writing the counter back. -/
def assigned_req_id (s : LoggerState) : Nat :=
  s.request_counter + 1

/-- `_handle_request`: compute the identifier `request_counter + 1`
and store a `PendingRequest` under it in the correlation table; the
counter itself and the record store are left untouched. -/
def handle_request (s : LoggerState) (e : RequestEvent) : LoggerState :=
  { s with
    request_tracking :=
      insertTrack (s.request_counter + 1)
        { start_time := e.start_time
          end_time := none
          insertion_points := count_insertion_points e.params
          url := e.url }
        s.request_tracking }

/-- The `LogRecord` that `_handle_response` appends for a response
processed in state `s`: serial `request_counter + 1`, per-URL count
recomputed by scanning `log_data` for exact URL matches plus one, and
start time / insertion points taken from the correlation-table entry
for that serial, with `end_time` / `0` as defaults when absent. -/
def finalize_record (s : LoggerState) (e : ResponseEvent) : LogRecord :=
  { serial := s.request_counter + 1
    host := e.host
    method := e.method
    url := e.url
    status := statusOf e.res
    tool := e.tool
    request_count := (s.log_data.filter (fun entry => entry.url == e.url)).length + 1
    insertion_points :=
      (lookupTrack (s.request_counter + 1) s.request_tracking).elim 0
        (fun t => t.insertion_points)
    start_time :=
      (lookupTrack (s.request_counter + 1) s.request_tracking).elim e.end_time
        (fun t => t.start_time)
    end_time := e.end_time }

/-- `_handle_response`: increment the shared counter, build the record
(`finalize_record`), delete the correlation-table entry for the new
serial, and append the record to the store. -/
def handle_response (s : LoggerState) (e : ResponseEvent) : LoggerState :=
  { s with
    request_counter := s.request_counter + 1
    request_tracking := eraseTrack (s.request_counter + 1) s.request_tracking
    log_data := s.log_data ++ [finalize_record s e] }

/-- `_process_request_data`: dispatch one dequeued work item on its
`is_request` flag. -/
def process_event (s : LoggerState) : TrafficEvent → LoggerState
  | .req e => handle_request s e
  | .res e => handle_response s e

/-- The worker loop draining the FIFO queue: process the queued events
front to back. -/
def process_events (s : LoggerState) : List TrafficEvent → LoggerState
  | [] => s
  | e :: rest => process_events (process_event s e) rest

/-- Whether a work item is a response (the branch that finalizes a
record). -/
def isResponse : TrafficEvent → Bool
  | .req _ => false
  | .res _ => true

/-- `clear_logs` after the user confirms: `log_data = []`,
`request_counter = 0`, `request_tracking = {}` (lines 571–584). -/
def clear_logs (s : LoggerState) : LoggerState :=
  { s with
    log_data := []
    request_counter := 0
    request_tracking := [] }

/-- One step of the field sanitization of `_write_full_csv` line 536:
`,` becomes `;`, newline and carriage return become a space. The three
sequential `replace` calls commute into this single character map
because no replacement output is a later replacement input. -/
def sanitizeChar (c : Char) : Char :=
  if c = ',' then ';'
  else if c = '\n' then ' '
  else if c = '\r' then ' '
  else c

/-- Sanitize one field value character by character. -/
def sanitizeField (f : String) : String :=
  ⟨f.data.map sanitizeChar⟩

/-- The ten column values of a record, each rendered with `str(...)`
as in line 536, in the column order of line 531. -/
def rowFields (r : LogRecord) : List String :=
  [toString r.serial, r.host, r.method, r.url, r.status, r.tool,
    toString r.request_count, toString r.insertion_points, r.start_time, r.end_time]

/-- The sanitized column values of a record. -/
def sanitizedRow (r : LogRecord) : List String :=
  (rowFields r).map sanitizeField

/-- `",".join(fields)` on character lists. -/
def joinComma : List (List Char) → List Char
  | [] => []
  | [f] => f
  | f :: g :: rest => f ++ ',' :: joinComma (g :: rest)

/-- The data row `_write_full_csv` writes for one record (line 537,
without the trailing newline). -/
def csvRow (r : LogRecord) : List Char :=
  joinComma ((sanitizedRow r).map String.data)

/-- `row.split(",")`: cut a data row back into column values at the
commas. -/
def splitComma : List Char → List (List Char)
  | [] => [[]]
  | c :: cs =>
    if c = ',' then [] :: splitComma cs
    else
      match splitComma cs with
      | [] => [[c]]
      | f :: rest => (c :: f) :: rest

/-- `_write_full_csv` reduced to its observable outcome: `none` when
the store is empty (the function returns `False` before any file is
created, lines 511–512), otherwise `some` of the data rows written
between the column-header line and the footer, one per stored record
in store order. -/
def write_full_csv (s : LoggerState) : Option (List (List Char)) :=
  if s.log_data.isEmpty then none else some (s.log_data.map csvRow)

/-- `_auto_backup`: return without writing when the store is empty,
otherwise write the fixed-name file via `_write_full_csv`. -/
def auto_backup (s : LoggerState) : Option (List (List Char)) :=
  if s.log_data.length > 0 then write_full_csv s else none

/-- `export_csv_manual`: refuse when the store is empty, otherwise
write the chosen file via `_write_full_csv`. -/
def export_csv_manual (s : LoggerState) : Option (List (List Char)) :=
  if s.log_data.length > 0 then write_full_csv s else none

/-- `backup_now` (the manual backup button): call `_write_full_csv`
on a timestamped path and report its outcome. It reads the state but
changes none of its fields — in particular it does not touch
`last_backup_time`. -/
def backup_now (s : LoggerState) : Option (List (List Char)) × LoggerState :=
  (write_full_csv s, s)

/-- One tick of the backup timer (`Task.run`, lines 270–276): when
auto-backup is enabled and at least `backup_interval_seconds` have
elapsed since `last_backup_time`, invoke the exporter
(`_auto_backup`) and record the tick time; the returned flag is
whether the exporter was invoked. -/
def scheduler_tick (s : LoggerState) (current_time : Int) : Bool × LoggerState :=
  if s.auto_backup_enabled then
    if (s.backup_interval_seconds : Int) ≤ current_time - s.last_backup_time then
      (true, { s with last_backup_time := current_time })
    else (false, s)
  else (false, s)

/-- A concrete finalized record used to instantiate the theorems. -/
def sampleRecord : LogRecord :=
  { serial := 1
    host := "example.com"
    method := "GET"
    url := "https://example.com/a?x=1"
    status := "200"
    tool := "Proxy"
    request_count := 1
    insertion_points := 1
    start_time := "2026-01-01 10:00:00"
    end_time := "2026-01-01 10:00:01" }

/-- A concrete state holding one record, with the default backup
settings and no backup recorded yet. -/
def sampleState : LoggerState :=
  { log_data := [sampleRecord]
    request_counter := 1
    request_tracking := []
    auto_backup_enabled := true
    backup_interval_seconds := 60
    last_backup_time := 0 }

/-- A concrete response event used to instantiate the theorems. -/
def sampleResponse : ResponseEvent :=
  { url := "https://example.com/b"
    host := "example.com"
    method := "POST"
    res := some (some 404)
    tool := "Repeater"
    end_time := "2026-01-01 10:05:00" }

/-! Helper lemmas about the correlation table. -/

/-- Reading back a key just written returns the written value. -/
theorem lookupTrack_insertTrack (k : Nat) (v : PendingRequest)
    (m : List (Nat × PendingRequest)) :
    lookupTrack k (insertTrack k v m) = some v := by
  simp [insertTrack, lookupTrack]

/-- Reading a key just deleted returns nothing. -/
theorem lookupTrack_eraseTrack (k : Nat) (m : List (Nat × PendingRequest)) :
    lookupTrack k (eraseTrack k m) = none := by
  induction m with
  | nil => rfl
  | cons kv rest ih =>
    by_cases h : kv.1 = k
    · simpa [eraseTrack, List.filter_cons, h] using ih
    · simpa [eraseTrack, List.filter_cons, h, lookupTrack] using ih

/-! Helper lemmas about row serialization. -/

/-- `splitComma` always yields at least one field. -/
theorem splitComma_ne_nil (cs : List Char) : splitComma cs ≠ [] := by
  induction cs with
  | nil => simp [splitComma]
  | cons c cs ih =>
    by_cases h : c = ','
    · simp [splitComma, h]
    · simp only [splitComma, h, if_false]
      cases hs : splitComma cs with
      | nil => simp
      | cons f rest => simp

/-- A comma-free field splits into just itself. -/
theorem splitComma_no_comma (f : List Char) (h : ',' ∉ f) :
    splitComma f = [f] := by
  induction f with
  | nil => rfl
  | cons c cs ih =>
    have hc : ¬ c = ',' := fun hc => h (hc ▸ List.mem_cons_self c cs)
    have hcs : ',' ∉ cs := fun hm => h (List.mem_cons_of_mem c hm)
    simp [splitComma, hc, ih hcs]

/-- Splitting past a comma-free field peels it off whole. -/
theorem splitComma_append (f cs : List Char) (h : ',' ∉ f) :
    splitComma (f ++ ',' :: cs) = f :: splitComma cs := by
  induction f with
  | nil => simp [splitComma]
  | cons c f ih =>
    have hc : ¬ c = ',' := fun hc => h (hc ▸ List.mem_cons_self c f)
    have hf : ',' ∉ f := fun hm => h (List.mem_cons_of_mem c hm)
    have key := ih hf
    rw [List.cons_append]
    simp only [splitComma, hc, if_false, key]

/-- Splitting undoes joining, for a nonempty list of comma-free
fields. -/
theorem splitComma_joinComma (fs : List (List Char)) (hne : fs ≠ [])
    (h : ∀ f ∈ fs, ',' ∉ f) :
    splitComma (joinComma fs) = fs := by
  induction fs with
  | nil => exact absurd rfl hne
  | cons f rest ih =>
    cases rest with
    | nil =>
      exact splitComma_no_comma f (h f (List.mem_cons_self f []))
    | cons g rest2 =>
      have hf : ',' ∉ f := h f (List.mem_cons_self f (g :: rest2))
      have hrest : ∀ x ∈ g :: rest2, ',' ∉ x :=
        fun x hx => h x (List.mem_cons_of_mem f hx)
      simp only [joinComma, splitComma_append f _ hf,
        ih (by simp) hrest]

/-- Sanitized fields contain no comma. -/
theorem comma_not_mem_sanitizeField (f : String) :
    ',' ∉ (sanitizeField f).data := by
  intro hmem
  simp only [sanitizeField] at hmem
  obtain ⟨c, _, hc⟩ := List.mem_map.mp hmem
  simp only [sanitizeChar] at hc
  split_ifs at hc <;> simp_all

/-! Helper lemma: the worker-loop invariant tying the shared counter
to the record store. -/

/-- Processing any queue of events preserves the invariant that the
counter equals the store size and the serials are `1..size` in store
order, and grows the store by exactly the number of response events. -/
theorem process_events_invariant (es : List TrafficEvent) (s : LoggerState)
    (h1 : s.request_counter = s.log_data.length)
    (h2 : s.log_data.map (fun r => r.serial) = List.range' 1 s.log_data.length) :
    (process_events s es).request_counter = (process_events s es).log_data.length ∧
    (process_events s es).log_data.map (fun r => r.serial)
      = List.range' 1 (process_events s es).log_data.length ∧
    (process_events s es).log_data.length
      = s.log_data.length + (es.filter isResponse).length := by
  induction es generalizing s with
  | nil => exact ⟨h1, h2, by simp [process_events]⟩
  | cons e rest ih =>
    cases e with
    | req e =>
      have := ih (handle_request s e) h1 h2
      simpa [process_events, process_event, isResponse, handle_request,
        List.filter_cons] using this
    | res e =>
      have h1' : (handle_response s e).request_counter
          = (handle_response s e).log_data.length := by
        simp [handle_response, h1]
      have h2' : (handle_response s e).log_data.map (fun r => r.serial)
          = List.range' 1 (handle_response s e).log_data.length := by
        simp only [handle_response, List.map_append, h2, List.length_append,
          List.map_cons, List.map_nil, List.length_cons, List.length_nil]
        rw [List.range'_1_concat]
        simp [finalize_record, h1, Nat.add_comm]
      have hmain := ih (handle_response s e) h1' h2'
      refine ⟨hmain.1, hmain.2.1, ?_⟩
      show (process_events (handle_response s e) rest).log_data.length
          = s.log_data.length + (List.filter isResponse (TrafficEvent.res e :: rest)).length
      rw [hmain.2.2]
      simp only [handle_response, List.length_append, List.length_cons,
        List.length_nil, List.filter_cons, isResponse, if_true]
      omega

/-- C1 (counterexample): two request events processed in succession
with no intervening response do NOT receive distinct identifiers —
starting from the initial state, the first request is assigned
identifier 1 and, because `_handle_request` never advances the shared
counter, the immediately following request is assigned identifier 1 as
well. -/
theorem request_ids_not_distinct :
    assigned_req_id initState = 1 ∧
    assigned_req_id
      (handle_request initState
        { url := "https://example.com/a?x=1", params := [()], start_time := "2026-01-01 10:00:00" })
      = 1 :=
  ⟨rfl, rfl⟩

/-- C1 (amended): processing a request event computes the identifier
`request_counter + 1` from the shared counter without advancing it and
inserts a `PendingRequest` keyed by that identifier (overwriting any
entry already stored under it); consequently two request events
processed in succession with no intervening response are assigned the
same identifier, not distinct ones. -/
theorem handle_request_reads_counter_without_advancing
    (s : LoggerState) (e1 : RequestEvent) :
    assigned_req_id s = s.request_counter + 1 ∧
    (handle_request s e1).request_counter = s.request_counter ∧
    lookupTrack (assigned_req_id s) (handle_request s e1).request_tracking
      = some { start_time := e1.start_time, end_time := none,
               insertion_points := count_insertion_points e1.params, url := e1.url } ∧
    (handle_request s e1).request_tracking
      = insertTrack (assigned_req_id s)
          { start_time := e1.start_time, end_time := none,
            insertion_points := count_insertion_points e1.params, url := e1.url }
          s.request_tracking ∧
    assigned_req_id (handle_request s e1) = assigned_req_id s :=
  ⟨rfl,
   rfl,
   lookupTrack_insertTrack _ _ _,
   rfl,
   rfl⟩

/-- C2: after the worker has processed any queue of events from the
initial state — in particular any interleaving of N request events
with their N matching response events — the record store holds exactly
one record per response event, and their serial numbers are exactly
1..N in store (= response-finalization) order: dense from 1 and
strictly increasing. -/
theorem serials_dense_in_finalization_order (es : List TrafficEvent) :
    (process_events initState es).log_data.length = (es.filter isResponse).length ∧
    (process_events initState es).log_data.map (fun r => r.serial)
      = List.range' 1 ((es.filter isResponse).length) := by
  have h := process_events_invariant es initState rfl rfl
  have hlen : (process_events initState es).log_data.length
      = (es.filter isResponse).length := by
    rw [h.2.2]; simp [initState]
  exact ⟨hlen, by rw [h.2.1, hlen]⟩

/-- C3: the request-count field of every finalized record equals the
number of records in the store at finalization time — the old store
contents plus the record itself — whose URL is string-equal to the
record's URL. -/
theorem request_count_matches_url_occurrences (s : LoggerState) (e : ResponseEvent) :
    (finalize_record s e).request_count
      = ((handle_response s e).log_data.filter
          (fun entry => entry.url == (finalize_record s e).url)).length := by
  have hurl : (finalize_record s e).url = e.url := rfl
  simp only [handle_response, hurl, List.filter_append, List.length_append]
  simp [finalize_record]

/-- C5: after a response event is processed, the correlation table
holds no entry keyed by the serial number assigned to that response
(the new value of the shared counter): the matching `PendingRequest`,
if any, is removed in the same step that finalizes the record. -/
theorem tracking_entry_removed_on_response (s : LoggerState) (e : ResponseEvent) :
    lookupTrack (handle_response s e).request_counter
      (handle_response s e).request_tracking = none :=
  lookupTrack_eraseTrack (s.request_counter + 1) s.request_tracking

/-- C7: `clear_logs` is idempotent in effect — clearing twice equals
clearing once — and it empties the record store and the correlation
table and resets the shared serial counter, so that the next finalized
record receives serial number 1. -/
theorem clear_idempotent_and_resets_serial (s : LoggerState) (e : ResponseEvent) :
    clear_logs (clear_logs s) = clear_logs s ∧
    (clear_logs s).log_data = [] ∧
    (clear_logs s).request_tracking = [] ∧
    (clear_logs s).request_counter = 0 ∧
    (handle_response (clear_logs s) e).log_data.map (fun r => r.serial) = [1] :=
  ⟨rfl, rfl, rfl, rfl, rfl⟩

/-- C10: processing a request event changes neither the shared counter
nor the record store; after processing any event queue from the
initial state the counter equals the number of stored records; and a
request processed while k records exist is assigned identifier k + 1
(its `PendingRequest` lands under that key), while response
finalization increments the counter and `clear_logs` resets it to
zero. -/
theorem request_leaves_counter_and_store_unchanged
    (es : List TrafficEvent) (s : LoggerState) (e : RequestEvent) (er : ResponseEvent) :
    (handle_request s e).request_counter = s.request_counter ∧
    (handle_request s e).log_data = s.log_data ∧
    (process_events initState es).request_counter
      = (process_events initState es).log_data.length ∧
    lookupTrack ((process_events initState es).log_data.length + 1)
        (handle_request (process_events initState es) e).request_tracking
      = some { start_time := e.start_time, end_time := none,
               insertion_points := count_insertion_points e.params, url := e.url } ∧
    (handle_response s er).request_counter = s.request_counter + 1 ∧
    (clear_logs s).request_counter = 0 := by
  have h := process_events_invariant es initState rfl rfl
  refine ⟨rfl, rfl, h.1, ?_, rfl, rfl⟩
  have hc : (process_events initState es).request_counter + 1
      = (process_events initState es).log_data.length + 1 := by rw [h.1]
  calc lookupTrack ((process_events initState es).log_data.length + 1)
        (handle_request (process_events initState es) e).request_tracking
      = lookupTrack ((process_events initState es).request_counter + 1)
        (handle_request (process_events initState es) e).request_tracking := by rw [hc]
    _ = some { start_time := e.start_time, end_time := none,
               insertion_points := count_insertion_points e.params, url := e.url } :=
        lookupTrack_insertTrack _ _ _

/-- C4: a response whose assigned serial number has no entry in the
correlation table still appends exactly one record, with
insertion-point count 0 and with start time equal to end time (the
response arrival time serves as both). -/
theorem orphan_response_still_logged (s : LoggerState) (e : ResponseEvent)
    (h : lookupTrack (s.request_counter + 1) s.request_tracking = none) :
    (handle_response s e).log_data = s.log_data ++ [finalize_record s e] ∧
    (finalize_record s e).insertion_points = 0 ∧
    (finalize_record s e).start_time = (finalize_record s e).end_time := by
  refine ⟨rfl, ?_, ?_⟩ <;> simp [finalize_record, h]

/-- C4 witness: in the initial state the correlation table is empty,
so a concrete response is an orphan and the conclusion holds for it. -/
theorem orphan_response_still_logged_witness :
    lookupTrack (initState.request_counter + 1) initState.request_tracking = none ∧
    ((handle_response initState sampleResponse).log_data
        = initState.log_data ++ [finalize_record initState sampleResponse] ∧
      (finalize_record initState sampleResponse).insertion_points = 0 ∧
      (finalize_record initState sampleResponse).start_time
        = (finalize_record initState sampleResponse).end_time) :=
  ⟨rfl, orphan_response_still_logged initState sampleResponse rfl⟩

/-- C6: on an empty record store, `_write_full_csv` reports failure
before creating any output (modelled as `none`), and so do the
automatic backup, the manual export and the manual backup built on
it. -/
theorem empty_store_export_fails (s : LoggerState) (h : s.log_data = []) :
    write_full_csv s = none ∧ auto_backup s = none ∧
    export_csv_manual s = none ∧ (backup_now s).1 = none := by
  simp [write_full_csv, auto_backup, export_csv_manual, backup_now, h]

/-- C6 witness: the initial state has an empty store and every export
path reports failure on it. -/
theorem empty_store_export_fails_witness :
    initState.log_data = [] ∧
    (write_full_csv initState = none ∧ auto_backup initState = none ∧
      export_csv_manual initState = none ∧ (backup_now initState).1 = none) :=
  ⟨rfl, empty_store_export_fails initState rfl⟩

/-- C8: a successful export writes exactly one comma-separated data
row per stored record, in store order, each row being the record's
column values after comma/newline/carriage-return sanitization; and
splitting any such row at the commas recovers exactly the sanitized
column values, i.e. the records are recovered modulo the
substitutions. -/
theorem csv_rows_roundtrip (s : LoggerState) (r : LogRecord) (h : s.log_data ≠ []) :
    write_full_csv s = some (s.log_data.map csvRow) ∧
    (s.log_data.map csvRow).length = s.log_data.length ∧
    splitComma (csvRow r) = (sanitizedRow r).map String.data := by
  refine ⟨?_, by simp, ?_⟩
  · simp [write_full_csv, h]
  · show splitComma (joinComma ((sanitizedRow r).map String.data))
        = (sanitizedRow r).map String.data
    apply splitComma_joinComma
    · simp [sanitizedRow, rowFields]
    · intro f hf
      obtain ⟨g, hg, hge⟩ := List.mem_map.mp hf
      obtain ⟨x, _, hxe⟩ := List.mem_map.mp (by simpa [sanitizedRow] using hg)
      rw [← hge, ← hxe]
      exact comma_not_mem_sanitizeField x

/-- C8 witness: the one-record sample state exports successfully and
its row splits back into the sanitized column values. -/
theorem csv_rows_roundtrip_witness :
    sampleState.log_data ≠ [] ∧
    (write_full_csv sampleState = some (sampleState.log_data.map csvRow) ∧
      (sampleState.log_data.map csvRow).length = sampleState.log_data.length ∧
      splitComma (csvRow sampleRecord) = (sanitizedRow sampleRecord).map String.data) :=
  ⟨by simp [sampleState], csv_rows_roundtrip sampleState sampleRecord (by simp [sampleState])⟩

/-- C9 (counterexample): a manual backup does not update the debounce
timestamp, so a timer tick arriving less than the configured interval
after a manual backup still invokes the exporter. Concretely: in the
one-record sample state (interval 60 s, no tick-driven backup yet) a
manual backup at time 1000 succeeds and leaves the state — including
`last_backup_time` — unchanged, and a tick one second later, at time
1001, still fires even though 1001 − 1000 is below the interval. -/
theorem tick_after_manual_backup_fires :
    (backup_now sampleState).1 = some [csvRow sampleRecord] ∧
    (backup_now sampleState).2 = sampleState ∧
    (scheduler_tick sampleState 1001).1 = true ∧
    ((1001 : Int) - 1000 < (sampleState.backup_interval_seconds : Int)) :=
  ⟨rfl, rfl, by decide, by decide⟩

/-- C9 (amended): on every tick the scheduler invokes the exporter
only when auto-backup is enabled and at least the configured interval
has elapsed since `last_backup_time`, the time of the last tick-driven
backup; hence two ticks less than the interval apart invoke the
exporter at most once between them. Manual backups, however, do not
update the debounce timestamp, so a tick arriving less than the
interval after a manual backup may still trigger a backup. -/
theorem scheduler_debounce_per_tick (s : LoggerState) (t1 t2 : Int)
    (h : t2 - t1 < (s.backup_interval_seconds : Int)) :
    ((scheduler_tick s t1).1 = true →
      s.auto_backup_enabled = true ∧
      (s.backup_interval_seconds : Int) ≤ t1 - s.last_backup_time) ∧
    ¬((scheduler_tick s t1).1 = true ∧
      (scheduler_tick (scheduler_tick s t1).2 t2).1 = true) ∧
    (backup_now s).2 = s := by
  refine ⟨?_, ?_, rfl⟩
  · intro hf
    by_cases he : s.auto_backup_enabled = true
    · by_cases hg : (s.backup_interval_seconds : Int) ≤ t1 - s.last_backup_time
      · exact ⟨he, hg⟩
      · simp [scheduler_tick, he, hg] at hf
    · simp [scheduler_tick, he] at hf
  · rintro ⟨hf1, hf2⟩
    by_cases he : s.auto_backup_enabled = true
    · by_cases hg : (s.backup_interval_seconds : Int) ≤ t1 - s.last_backup_time
      · have hs1 : (scheduler_tick s t1).2 = { s with last_backup_time := t1 } := by
          simp [scheduler_tick, he, hg]
        rw [hs1] at hf2
        by_cases hg2 : (s.backup_interval_seconds : Int) ≤ t2 - t1
        · omega
        · simp [scheduler_tick, he, hg2] at hf2
      · simp [scheduler_tick, he, hg] at hf1
    · simp [scheduler_tick, he] at hf1

/-- C9 (amended) witness: in the sample state a tick at time 1000
fires (and only because the interval had elapsed since
`last_backup_time = 0`); a second tick at 1001 cannot fire again, and
the manual backup leaves the state unchanged. -/
theorem scheduler_debounce_per_tick_witness :
    ((1001 : Int) - 1000 < (sampleState.backup_interval_seconds : Int)) ∧
    (((scheduler_tick sampleState 1000).1 = true →
        sampleState.auto_backup_enabled = true ∧
        (sampleState.backup_interval_seconds : Int) ≤ 1000 - sampleState.last_backup_time) ∧
      ¬((scheduler_tick sampleState 1000).1 = true ∧
        (scheduler_tick (scheduler_tick sampleState 1000).2 1001).1 = true) ∧
      (backup_now sampleState).2 = sampleState) :=
  ⟨by decide, scheduler_debounce_per_tick sampleState 1000 1001 (by decide)⟩
